import Mathlib

/-!
Verification of the taperipper multi-core cooperative scheduler core:
shallow embedding of platform/local.rs, runtime/mod.rs, runtime/executor.rs
and runtime/time.rs, with theorems settling the frozen claims about the
core-local storage, the work-stealing executor loop, scheduler slot
claiming and the RDTSC calibration loop.
-/

set_option autoImplicit false

/-- Panics the embedded code can raise. Each constructor names the concrete
panic site in the Rust source: the expect on a failed slot compare_exchange
in CoreLocals with, the out-of-bounds slot index panic in CoreLocals with,
the assert in Runtime make_scheduler, the expect on CoreLocals current
called before init, the try_into expect in the RDTSC loop, the division of
a Duration by zero, and the unreachable after the calibration attempts. -/
inductive Panic where
  | coreLocalCasFailed
  | slotOutOfBounds
  | outOfCoreSlots
  | coreLocalsUninit
  | rdtscOverflow
  | durationDivByZero
  | calibrationUnreachable
  deriving DecidableEq, Repr

/-! ## Core-local storage: platform/local.rs -/

/-- CoreLocals MAX_LOCALS, local.rs line 36. -/
def CoreLocals.MAX_LOCALS : Nat := 64

/-- CoreLocals with, local.rs lines 106-139, for one call on one core.
Heap pointers are modelled as Nat identities and the type erased slot as
Option Nat (none is the null pointer). The call reads the slot index of the
key, panics if it is out of bounds (lines 111-117), loads the slot pointer
(line 120: the loaded argument), and if it is null constructs a fresh value
(lines 125-126: the fresh argument) and compare_exchanges the slot from
null to it; atCas is the slot content at the moment of the compare_exchange.
A successful CAS (slot still null) installs fresh; a failed CAS hits the
expect on line 131 and panics. A non-null load returns the existing value
(lines 137-138). -/
def CoreLocals.withLocal (slotIdx : Nat) (loaded atCas : Option Nat) (fresh : Nat) :
    Except Panic Nat :=
  if slotIdx < CoreLocals.MAX_LOCALS then
    match loaded with
    | some p => Except.ok p
    | none =>
      match atCas with
      | none => Except.ok fresh
      | some _ => Except.error Panic.coreLocalCasFailed
  else Except.error Panic.slotOutOfBounds

/-! ## Steal-victim selection: runtime/executor.rs lines 145-151 -/

/-- CoreExecutor seize victim index choice, executor.rs lines 145-151:
index 1 when exactly two cores are active, otherwise the PRNG draw r from
random_range over 0..active. -/
def chooseVictim (active r : Nat) : Nat :=
  if active = 2 then 1 else r

/-- Translation of the claim C2 sentence (spec section 4.5): the chosen
victim skips the stealing executors own core, and with exactly two active
cores it is always the other core (1 minus the stealers id among cores 0
and 1). Stated from the spec words, to be compared against chooseVictim. -/
def seizeVictimSpec (selfId active r : Nat) : Prop :=
  chooseVictim active r ≠ selfId ∧ (active = 2 → chooseVictim active r = 1 - selfId)

/-! ## Claim C1 -/

/-- Claim C1 counterexample: a call whose compare-and-swap loses (slot null
at load, already holding value 7 at CAS time) panics at the expect on
local.rs line 131; it does not read back the winning value 7 as the claim
states. -/
theorem C1_counterexample :
    CoreLocals.withLocal 0 none (some 7) 42 = Except.error Panic.coreLocalCasFailed ∧
    CoreLocals.withLocal 0 none (some 7) 42 ≠ Except.ok 7 := by
  constructor
  · rfl
  · simp [CoreLocals.withLocal, CoreLocals.MAX_LOCALS]

/-- Claim C1 as amended: for a key with an in-bounds slot index on an
initialized core, a call that loads a non-null slot pointer returns that
existing instance; the first call (slot null at load and still null at the
CAS) constructs the value exactly once and returns it; but a call whose
compare-and-swap loses panics rather than reading back the winning value. -/
theorem C1_core_local_with_amended (slotIdx : Nat) (loaded atCas : Option Nat) (fresh : Nat)
    (hs : slotIdx < CoreLocals.MAX_LOCALS) :
    (∀ p, loaded = some p → CoreLocals.withLocal slotIdx loaded atCas fresh = Except.ok p) ∧
    (loaded = none → atCas = none →
      CoreLocals.withLocal slotIdx loaded atCas fresh = Except.ok fresh) ∧
    (loaded = none → ∀ q, atCas = some q →
      CoreLocals.withLocal slotIdx loaded atCas fresh = Except.error Panic.coreLocalCasFailed) := by
  refine ⟨?_, ?_, ?_⟩
  · intro p hp
    subst hp
    simp [CoreLocals.withLocal, hs]
  · intro h1 h2
    subst h1; subst h2
    simp [CoreLocals.withLocal, hs]
  · intro h1 q h2
    subst h1; subst h2
    simp [CoreLocals.withLocal, hs]

/-- Claim C1 witness: the amended theorem applied at slot 0 with an already
installed instance 3, observing that same instance. -/
theorem C1_witness :
    CoreLocals.withLocal 0 (some 3) none 9 = Except.ok 3 :=
  (C1_core_local_with_amended 0 (some 3) none 9 (by decide)).1 3 rfl

/-! ## Claim C2 -/

/-- Claim C2 counterexample: with exactly two active cores, a stealing
executor running on core 1 chooses victim index 1, its own core, not the
other core 0; the spec predicate fails at selfId 1, active 2, draw 0. -/
theorem C2_counterexample : ¬ seizeVictimSpec 1 2 0 :=
  fun h => h.1 rfl

/-- Claim C2 as amended: the chosen victim index is always within the
active range; with exactly two active cores it is the constant 1 (the other
core only when the stealer is core 0); with more than two active cores it
is exactly the uniform draw r over all active indices, which does not skip
the stealing executors own index (the own index is a possible outcome). -/
theorem C2_victim_choice_amended (selfId active r : Nat) (h2 : 2 ≤ active) (hr : r < active)
    (hself : selfId < active) :
    chooseVictim active r < active ∧
    (active = 2 → chooseVictim active r = 1) ∧
    (2 < active → chooseVictim active r = r) ∧
    (2 < active → ∃ rr, rr < active ∧ chooseVictim active rr = selfId) := by
  refine ⟨?_, ?_, ?_, ?_⟩
  · by_cases h : active = 2
    · subst h; simp [chooseVictim]
    · simpa [chooseVictim, h] using hr
  · intro h
    simp [chooseVictim, h]
  · intro h
    have hne : active ≠ 2 := by omega
    simp [chooseVictim, hne]
  · intro h
    have hne : active ≠ 2 := by omega
    exact ⟨selfId, hself, by simp [chooseVictim, hne]⟩

/-- Claim C2 witness: the amended theorem applied with three active cores,
a stealer on core 0 and the draw 1. -/
theorem C2_witness :
    chooseVictim 3 1 < 3 ∧
    (3 = 2 → chooseVictim 3 1 = 1) ∧
    (2 < 3 → chooseVictim 3 1 = 1) ∧
    (2 < 3 → ∃ rr, rr < 3 ∧ chooseVictim 3 rr = 0) :=
  C2_victim_choice_amended 0 3 1 (by decide) (by decide) (by decide)

/-! ## The work-stealing seize operation: runtime/executor.rs lines 127-172 -/

/-- MAX_STEAL_ATTEMPTS, executor.rs line 29. -/
def MAX_STEAL_ATTEMPTS : Nat := 8

/-- MAX_TASKS_TO_STEAL, executor.rs line 30. -/
def MAX_TASKS_TO_STEAL : Nat := 64

/-- Modelled from the spec: the maitake Stealer spawn_n operation (an
external crate, not in this repository). Per the spec data model a Stealer
is a transient capability allowing extraction of up to N tasks, so spawning
at most cap tasks out of avail available removes min avail cap of them. -/
def spawnN (avail cap : Nat) : Nat := min avail cap

/-- Environment one round of the steal loop observes: the value
RUNTIME.active_cores() reads (executor.rs line 136), the PRNG draw of
random_range over 0..active (line 150), and the answer of
RUNTIME.seize(index) (line 153): some initial_task_count when a stealer for
the victim core was acquired, none when the slot is uninitialized or
already being stolen from. -/
structure RoundEnv where
  active : Nat
  rand : Nat
  victim : Option Nat
  deriving DecidableEq, Repr

/-- Where the tasks returned by one seize call came from. -/
inductive StealSource where
  | injector (phase : Nat)
  | victimCore (index len : Nat)
  deriving DecidableEq, Repr

/-- Result of one seize call: how many tasks were spawned onto the local
scheduler, from which source, how many victim rounds ran a steal attempt,
and how many times the shared injector was tried. -/
structure SeizeOutcome where
  count : Nat
  source : Option StealSource
  victimRounds : Nat
  injectorTries : Nat
  deriving DecidableEq, Repr

/-- The steal loop of seize, executor.rs lines 134-164: while attempts
remain, read active_cores and break when alone (active at most 1),
otherwise choose a victim index and attempt to acquire a stealer; on
success return the victim index, its initial task count and the stolen
count spawnN len (min (len / 2) MAX_TASKS_TO_STEAL) (lines 156-159); on
failure decrement the attempts and retry. The second component counts the
rounds that ran a steal attempt. -/
def stealLoop (env : Nat → RoundEnv) : Nat → Nat → Option (Nat × Nat × Nat) × Nat
  | roundIdx, 0 => (none, roundIdx)
  | roundIdx, fuel + 1 =>
    if (env roundIdx).active ≤ 1 then
      (none, roundIdx)
    else
      match (env roundIdx).victim with
      | some len =>
        (some (chooseVictim (env roundIdx).active (env roundIdx).rand, len,
          spawnN len (min (len / 2) MAX_TASKS_TO_STEAL)), roundIdx + 1)
      | none => stealLoop env (roundIdx + 1) fuel

/-- CoreExecutor seize, executor.rs lines 127-172: first try the shared
injector (inj1 is some n when try_steal returned a stealer over n queued
tasks); if that fails run the steal loop for MAX_STEAL_ATTEMPTS rounds; if
the loop acquired no stealer, try the injector once more (inj2) and
otherwise return zero. -/
def seize (inj1 : Option Nat) (env : Nat → RoundEnv) (inj2 : Option Nat) : SeizeOutcome :=
  match inj1 with
  | some n => ⟨spawnN n MAX_TASKS_TO_STEAL, some (StealSource.injector 1), 0, 1⟩
  | none =>
    match stealLoop env 0 MAX_STEAL_ATTEMPTS with
    | (some (idx, len, stolen), rounds) =>
      ⟨stolen, some (StealSource.victimCore idx len), rounds, 1⟩
    | (none, rounds) =>
      match inj2 with
      | some n => ⟨spawnN n MAX_TASKS_TO_STEAL, some (StealSource.injector 2), rounds, 2⟩
      | none => ⟨0, none, rounds, 2⟩

/-- A successful steal loop round stole exactly min (len / 2)
MAX_TASKS_TO_STEAL tasks out of the victim queue of initial length len. -/
theorem stealLoop_stolen_eq (env : Nat → RoundEnv) :
    ∀ fuel roundIdx idx len stolen rounds,
      stealLoop env roundIdx fuel = (some (idx, len, stolen), rounds) →
      stolen = min (len / 2) MAX_TASKS_TO_STEAL := by
  intro fuel
  induction fuel with
  | zero =>
    intro r i l s rr h
    simp [stealLoop] at h
  | succ n ih =>
    intro r i l s rr h
    by_cases ha : (env r).active ≤ 1
    · simp [stealLoop, ha] at h
    · rcases hv : (env r).victim with _ | len
      · simp only [stealLoop, if_neg ha, hv] at h
        exact ih (r + 1) i l s rr h
      · simp only [stealLoop, if_neg ha, hv, Prod.mk.injEq, Option.some.injEq] at h
        obtain ⟨⟨h1, h2, h3⟩, h4⟩ := h
        subst h2; subst h3
        have hle : min (len / 2) MAX_TASKS_TO_STEAL ≤ len :=
          le_trans (min_le_left _ _) (Nat.div_le_self len 2)
        simpa [spawnN] using Nat.min_eq_right hle

/-- The steal loop runs at most fuel further rounds. -/
theorem stealLoop_rounds_le (env : Nat → RoundEnv) :
    ∀ fuel roundIdx res rounds,
      stealLoop env roundIdx fuel = (res, rounds) → rounds ≤ roundIdx + fuel := by
  intro fuel
  induction fuel with
  | zero =>
    intro r res rr h
    simp only [stealLoop, Prod.mk.injEq] at h
    omega
  | succ n ih =>
    intro r res rr h
    by_cases ha : (env r).active ≤ 1
    · simp only [stealLoop, if_pos ha, Prod.mk.injEq] at h
      omega
    · rcases hv : (env r).victim with _ | len
      · simp only [stealLoop, if_neg ha, hv] at h
        have := ih (r + 1) res rr h
        omega
      · simp only [stealLoop, if_neg ha, hv, Prod.mk.injEq] at h
        omega

/-! ## Claim C4 -/

/-- Claim C4: whenever one seize operation steals from a victim core whose
queue length was len when the stealer was acquired, the number of tasks
removed is at most min (len / 2) MAX_TASKS_TO_STEAL, that is min (len / 2)
64 (executor.rs lines 153-159). -/
theorem C4_steal_bound (inj1 inj2 : Option Nat) (env : Nat → RoundEnv) (idx len : Nat)
    (h : (seize inj1 env inj2).source = some (StealSource.victimCore idx len)) :
    (seize inj1 env inj2).count ≤ min (len / 2) MAX_TASKS_TO_STEAL := by
  cases inj1 with
  | some n => simp [seize] at h
  | none =>
    rcases hl : stealLoop env 0 MAX_STEAL_ATTEMPTS with ⟨o, rounds⟩
    rcases o with _ | ⟨i, l, s⟩
    · rcases inj2 with _ | m <;> simp [seize, hl] at h
    · have hs := stealLoop_stolen_eq env MAX_STEAL_ATTEMPTS 0 i l s rounds hl
      simp only [seize, hl, Option.some.injEq, StealSource.victimCore.injEq] at h ⊢
      obtain ⟨h1, h2⟩ := h
      subst h1; subst h2
      exact le_of_eq hs

/-- Claim C4 witness: the bound applied to a concrete seize in which the
injector is empty and the first victim round acquires a stealer over a
victim queue of 10 tasks; 5 tasks are taken. -/
theorem C4_witness :
    (seize none (fun _ => ⟨3, 2, some 10⟩) none).count ≤
      min (10 / 2) MAX_TASKS_TO_STEAL :=
  C4_steal_bound none none (fun _ => ⟨3, 2, some 10⟩) 2 10 (by decide)

/-! ## Claim C5 -/

/-- Claim C5: seize tries the shared injector first (a non-empty first
injector try settles the call with zero victim rounds); the steal loop runs
at most MAX_STEAL_ATTEMPTS rounds; and when the first injector try failed
and no victim stealer was acquired, the injector is retried exactly once
more (injectorTries is 2), yielding its tasks or zero for this tick. -/
theorem C5_seize_order (inj1 inj2 : Option Nat) (env : Nat → RoundEnv) :
    (∀ n, inj1 = some n →
      seize inj1 env inj2 =
        ⟨spawnN n MAX_TASKS_TO_STEAL, some (StealSource.injector 1), 0, 1⟩) ∧
    (seize inj1 env inj2).victimRounds ≤ MAX_STEAL_ATTEMPTS ∧
    (inj1 = none →
      (∀ i l, (seize inj1 env inj2).source ≠ some (StealSource.victimCore i l)) →
      (seize inj1 env inj2).injectorTries = 2 ∧
      (∀ m, inj2 = some m →
        (seize inj1 env inj2).count = spawnN m MAX_TASKS_TO_STEAL ∧
        (seize inj1 env inj2).source = some (StealSource.injector 2)) ∧
      (inj2 = none → (seize inj1 env inj2).count = 0)) := by
  cases inj1 with
  | some n =>
    refine ⟨?_, ?_, ?_⟩
    · intro m hm
      injection hm with hm
      subst hm
      rfl
    · simp [seize, MAX_STEAL_ATTEMPTS]
    · intro hc
      exact Option.noConfusion hc
  | none =>
    rcases hl : stealLoop env 0 MAX_STEAL_ATTEMPTS with ⟨o, rounds⟩
    have hr : rounds ≤ MAX_STEAL_ATTEMPTS := by
      simpa using stealLoop_rounds_le env MAX_STEAL_ATTEMPTS 0 o rounds hl
    rcases o with _ | ⟨i, l, s⟩
    · rcases inj2 with _ | m
      · refine ⟨fun x hx => Option.noConfusion hx, ?_, ?_⟩
        · simpa [seize, hl] using hr
        · intro _ _
          exact ⟨by simp [seize, hl], fun x hx => Option.noConfusion hx,
            fun _ => by simp [seize, hl]⟩
      · refine ⟨fun x hx => Option.noConfusion hx, ?_, ?_⟩
        · simpa [seize, hl] using hr
        · intro _ _
          refine ⟨by simp [seize, hl], ?_, fun hx => Option.noConfusion hx⟩
          intro x hx
          injection hx with hx
          subst hx
          exact ⟨by simp [seize, hl], by simp [seize, hl]⟩
    · refine ⟨fun x hx => Option.noConfusion hx, ?_, ?_⟩
      · simpa [seize, hl] using hr
      · intro _ hns
        exact ((hns i l) (by simp [seize, hl])).elim

/-! ## The executor run loop: runtime/executor.rs lines 70-125 -/

/-- Observable actions of one iteration of the run loop: the local
scheduler tick and timer turn inside CoreExecutor tick (executor.rs lines
117-118), a seize call (line 124), an invocation of the platform idle-stall
primitive (the firmware stall used as idle wait, claimed by the spec), and
leaving the loop. -/
inductive RunEvent where
  | schedTick
  | timerTurn
  | seizeCall
  | stallCall
  | exitLoop
  deriving DecidableEq, Repr

/-- Whether the run loop continues with another iteration or leaves. -/
inductive LoopCtl where
  | cont
  | halt
  deriving DecidableEq, Repr

/-- CoreExecutor tick, executor.rs lines 114-125: run the local scheduler
once and turn the timer; report true when local work remains, otherwise
call seize and report whether it yielded any tasks (seizeCount is the value
seize returned this iteration). -/
def tickModel (hasRemaining : Bool) (seizeCount : Nat) : List RunEvent × Bool :=
  if hasRemaining then
    ([RunEvent.schedTick, RunEvent.timerTurn], true)
  else
    ([RunEvent.schedTick, RunEvent.timerTurn, RunEvent.seizeCall], decide (0 < seizeCount))

/-- One iteration of the run loop body, executor.rs lines 99-111: when tick
reports work, loop again; when it reports none and the executor was asked
to stop (stillRunning false), leave the loop; otherwise fall through to the
next iteration. The emitted events show everything the iteration invoked. -/
def runIteration (hasRemaining : Bool) (seizeCount : Nat) (stillRunning : Bool) :
    List RunEvent × LoopCtl :=
  match tickModel hasRemaining seizeCount with
  | (evs, true) => (evs, LoopCtl.cont)
  | (evs, false) =>
    if stillRunning then (evs, LoopCtl.cont)
    else (evs ++ [RunEvent.exitLoop], LoopCtl.halt)

/-- Translation of the claim C3 sentence: an iteration in which seize
yields zero tasks while the executor is still running performs an idle
wait, that is, invokes the idle-stall primitive. Stated from the spec
words, to be compared against runIteration. -/
def idleIterationStalls : Prop :=
  RunEvent.stallCall ∈ (runIteration false 0 true).1

/-! ## Claim C3 -/

/-- Claim C3 counterexample: the iteration with no remaining local work,
a seize that yielded zero tasks and no stop request invokes no idle-stall
primitive at all; the run loop of executor.rs lines 99-111 contains no
stall call, it goes straight back to tick. -/
theorem C3_counterexample : ¬ idleIterationStalls := by
  intro h
  simp [idleIterationStalls, runIteration, tickModel] at h

/-- Claim C3 as amended: no iteration of the run loop ever invokes the
idle-stall primitive; when seize yields zero tasks and the executor has not
been asked to stop the loop immediately continues with the next tick (busy
spin, no panic), and when it has been asked to stop it leaves the loop. -/
theorem C3_no_idle_stall_amended (hasRemaining : Bool) (seizeCount : Nat) (stillRunning : Bool) :
    RunEvent.stallCall ∉ (runIteration hasRemaining seizeCount stillRunning).1 ∧
    (runIteration false 0 true).2 = LoopCtl.cont ∧
    (runIteration false 0 false).2 = LoopCtl.halt := by
  refine ⟨?_, by simp [runIteration, tickModel], by simp [runIteration, tickModel]⟩
  cases hasRemaining with
  | true =>
    simp [runIteration, tickModel]
  | false =>
    rcases Nat.eq_zero_or_pos seizeCount with h | h
    · subst h
      cases stillRunning <;> simp [runIteration, tickModel]
    · cases stillRunning <;>
        simp [runIteration, tickModel, decide_eq_true h]

/-! ## Run entry, the stop flag and the scheduler scope guard:
runtime/executor.rs lines 70-112 and runtime/mod.rs lines 21-22 -/

/-- State of one core as the executor sees it: the running flag of the
executor assigned to the core, and the CORE_SCHED core-local cell (the
identity of the installed static scheduler, none when unset). -/
structure ExecState where
  running : Bool
  coreSched : Option Nat
  deriving DecidableEq, Repr

/-- How run left the scheduling loop: a cooperative shutdown (tick yielded
nothing and the stop flag had been cleared by stop), or a panic unwinding
out of the loop body. -/
inductive LoopExit where
  | shutdown
  | panicked
  deriving DecidableEq, Repr

/-- What a call to run did: returned early on the failed Idle to Running
transition, or entered the scheduling loop. -/
inductive RunOutcome where
  | earlyReturn
  | loopEntered
  deriving DecidableEq, Repr

/-- Drop of the scope guard _SchGuard, executor.rs lines 74-79: set the
CORE_SCHED core-local cell to None. -/
def schGuardDrop (s : ExecState) : ExecState :=
  { s with coreSched := none }

/-- CoreExecutor run, executor.rs lines 70-112: compare_exchange the
running flag from false to true, logging and returning early when it was
already true; otherwise install the scheduler schedId into CORE_SCHED, arm
the scope guard, and run the loop until it exits by shutdown (the stop flag
is then already false) or by a panic unwinding out (the flag stays true);
on either exit path the guard drop clears CORE_SCHED. -/
def runModel (st : ExecState) (schedId : Nat) (ex : LoopExit) : RunOutcome × ExecState :=
  if st.running then
    (RunOutcome.earlyReturn, st)
  else
    (RunOutcome.loopEntered,
      schGuardDrop
        (match ex with
         | LoopExit.shutdown => { running := false, coreSched := some schedId }
         | LoopExit.panicked => { running := true, coreSched := some schedId }))

/-! ## Claim C8 -/

/-- Claim C8: run on an already Running executor returns early (logged, not
fatal) without entering the scheduling loop and leaves the state untouched;
only a not-running executor enters the loop, and it does so with the
running flag raised. -/
theorem C8_run_double_entry (st : ExecState) (schedId : Nat) (ex : LoopExit) :
    (st.running = true →
      (runModel st schedId ex).1 = RunOutcome.earlyReturn ∧
      (runModel st schedId ex).2 = st) ∧
    (st.running = false →
      (runModel st schedId ex).1 = RunOutcome.loopEntered) := by
  rcases st with ⟨r, cs⟩
  cases r <;> simp [runModel]

/-! ## Claim C9 -/

/-- Claim C9: once run has installed the scheduler into the CORE_SCHED
core-local cell, every exit path of the loop, the cooperative shutdown and
the panic unwind alike, runs the scope guard drop, so after run returns the
calling core has no core-local scheduler assigned. -/
theorem C9_core_sched_cleared (st : ExecState) (schedId : Nat) (ex : LoopExit)
    (h : st.running = false) :
    (runModel st schedId ex).1 = RunOutcome.loopEntered ∧
    (runModel st schedId ex).2.coreSched = none := by
  cases ex <;> simp [runModel, h, schGuardDrop]

/-- Claim C9 witness: the guard theorem applied to an idle core with a
stale CORE_SCHED value 7 and a loop that exits by panic. -/
theorem C9_witness :
    (runModel ⟨false, some 7⟩ 3 LoopExit.panicked).1 = RunOutcome.loopEntered ∧
    (runModel ⟨false, some 7⟩ 3 LoopExit.panicked).2.coreSched = none :=
  C9_core_sched_cleared ⟨false, some 7⟩ 3 LoopExit.panicked rfl

/-! ## Task spawn routing: runtime/mod.rs lines 71-87 -/

/-- State the free function spawn observes on the calling core: whether
CoreLocals init has run on this core (the GS base and magic key check of
local.rs lines 39-53), and the CORE_SCHED cell content when it has. -/
structure CoreState where
  localsInit : Bool
  coreSched : Option Nat
  deriving DecidableEq, Repr

/-- Where a spawned task was enqueued. -/
inductive SpawnTarget where
  | coreScheduler (id : Nat)
  | injector
  deriving DecidableEq, Repr

/-- The free function spawn, runtime/mod.rs lines 71-87: route through
CORE_SCHED.with, which calls CoreLocals current (local.rs lines 99-103) and
panics with the expect there when core locals are not initialized on the
calling core; with locals initialized, spawn on the core-local scheduler
when one is set, otherwise into the shared runtime injector. -/
def spawn (st : CoreState) : Except Panic SpawnTarget :=
  if st.localsInit then
    match st.coreSched with
    | some s => Except.ok (SpawnTarget.coreScheduler s)
    | none => Except.ok SpawnTarget.injector
  else Except.error Panic.coreLocalsUninit

/-! ## Claim C10 -/

/-- Claim C10: spawn called on a core where CoreLocals init has not run
panics (the expect inside CoreLocals current), because routing always goes
through the core-local CORE_SCHED key; consequently every successful spawn,
the injector fallback included, happens on a core with initialized
core-local storage, and the injector is only reached when no core-local
scheduler is installed. -/
theorem C10_spawn_requires_locals (st : CoreState) :
    (st.localsInit = false → spawn st = Except.error Panic.coreLocalsUninit) ∧
    (∀ t, spawn st = Except.ok t → st.localsInit = true) ∧
    (spawn st = Except.ok SpawnTarget.injector →
      st.localsInit = true ∧ st.coreSched = none) := by
  rcases st with ⟨li, cs⟩
  cases li
  · simp [spawn]
  · cases cs <;> simp [spawn]

/-! ## The runtime registry: runtime/mod.rs lines 24-69, platform/smp.rs -/

/-- MAX_CORES, smp.rs line 6. -/
def MAX_CORES : Nat := 2048

/-- State of the global Runtime registry: the atomic active-core counter
and the list of scheduler slots initialized so far, in claim order. -/
structure RuntimeState where
  cores : Nat
  claimed : List Nat
  deriving DecidableEq, Repr

/-- Runtime make_scheduler, runtime/mod.rs lines 48-64: fetch-and-increment
the core counter, assert the claimed index is below MAX_CORES (the panic
when it is not), then lazily construct a scheduler in that slot and return
the index together with the updated registry. -/
def makeScheduler (rt : RuntimeState) : Except Panic (Nat × RuntimeState) :=
  if rt.cores < MAX_CORES then
    Except.ok (rt.cores, ⟨rt.cores + 1, rt.claimed ++ [rt.cores]⟩)
  else
    Except.error Panic.outOfCoreSlots

/-- The registry as the static RUNTIME initializer builds it, runtime/mod.rs
lines 24-35: counter zero, no slot initialized. -/
def runtimeInit : RuntimeState := ⟨0, []⟩

/-- The registry after k successive make_scheduler calls starting from the
initial state (an error propagates). -/
def applyCalls : Nat → Except Panic RuntimeState
  | 0 => Except.ok runtimeInit
  | k + 1 =>
    match applyCalls k with
    | Except.ok rt => (makeScheduler rt).map Prod.snd
    | Except.error e => Except.error e

/-- After k make_scheduler calls, k at most MAX_CORES, the counter is k and
exactly the slots 0 to k - 1 are claimed, in order. -/
theorem applyCalls_ok (k : Nat) (hk : k ≤ MAX_CORES) :
    applyCalls k = Except.ok ⟨k, List.range k⟩ := by
  induction k with
  | zero => rfl
  | succ n ih =>
    have h2 : n < MAX_CORES := lt_of_lt_of_le (Nat.lt_succ_self n) hk
    have h1 : n ≤ MAX_CORES := le_of_lt h2
    simp [applyCalls, ih h1, makeScheduler, h2, List.range_succ, Except.map]

/-! ## Claim C6 -/

/-- Claim C6: make_scheduler claims slots by incrementing the core counter;
starting from the initial registry the first MAX_CORES calls succeed, the
call made with counter k returning the fresh slot index k, never a slot
already claimed (the claimed list holds 0 to k - 1, all distinct, and k is
not among them); the call made once the counter reached MAX_CORES, the
(MAX_CORES + 1)-th overall, fails deterministically with the out-of-slots
panic instead of wrapping or aliasing. -/
theorem C6_make_scheduler (k : Nat) (hk : k ≤ MAX_CORES) :
    applyCalls k = Except.ok ⟨k, List.range k⟩ ∧
    (List.range k).Nodup ∧
    (k < MAX_CORES →
      makeScheduler ⟨k, List.range k⟩ =
        Except.ok (k, ⟨k + 1, List.range k ++ [k]⟩) ∧ k ∉ List.range k) ∧
    (k = MAX_CORES → makeScheduler ⟨k, List.range k⟩ = Except.error Panic.outOfCoreSlots) := by
  refine ⟨applyCalls_ok k hk, List.nodup_range k, ?_, ?_⟩
  · intro h
    exact ⟨by simp [makeScheduler, h], by simp [List.mem_range]⟩
  · intro h
    subst h
    simp [makeScheduler]

/-- Claim C6 witness: the theorem applied after all MAX_CORES slots were
claimed; the next make_scheduler call fails with the out-of-slots panic. -/
theorem C6_witness :
    applyCalls MAX_CORES = Except.ok ⟨MAX_CORES, List.range MAX_CORES⟩ ∧
    (List.range MAX_CORES).Nodup ∧
    (MAX_CORES < MAX_CORES →
      makeScheduler ⟨MAX_CORES, List.range MAX_CORES⟩ =
        Except.ok (MAX_CORES, ⟨MAX_CORES + 1, List.range MAX_CORES ++ [MAX_CORES]⟩) ∧
      MAX_CORES ∉ List.range MAX_CORES) ∧
    (MAX_CORES = MAX_CORES →
      makeScheduler ⟨MAX_CORES, List.range MAX_CORES⟩ = Except.error Panic.outOfCoreSlots) :=
  C6_make_scheduler MAX_CORES (le_refl MAX_CORES)

/-! ## RDTSC calibration: runtime/time.rs lines 18-58 -/

/-- ELAPSE_DURATION of the calibration loop, time.rs line 21, in
nanoseconds: 50 milliseconds. -/
def NANOS_ELAPSE : Nat := 50000000

/-- Largest value of the Rust u32 type. -/
def U32_MAX : Nat := 4294967295

/-- MAX_ATTEMPTS of the calibration loop, time.rs line 20. -/
def MAX_ATTEMPTS : Nat := 5

/-- Nanoseconds of ELAPSE_DURATION / e32 for the u32 divisor e32, the Rust
core Duration division (0 seconds, 50000000 nanoseconds divided by e32
gives floor 50000000 / e32 nanoseconds). -/
def nanosPerTick (e32 : Nat) : Nat := NANOS_ELAPSE / e32

/-- The inner shift loop of one calibration attempt, time.rs lines 37-54:
starting at shift sft with fuel iterations left (the source runs sft from 0
while sft is below 64), narrow the elapsed cycle count to u32 (the try_into
expect panics when elapsed shifted right by sft still exceeds u32), divide
the elapse duration by it (a zero divisor panics), and return the shift and
the nanosecond duration as soon as it is non-zero, otherwise increase the
shift; exhausted fuel means the attempt failed. -/
def shiftSearch (elapsed : Nat) : Nat → Nat → Except Panic (Option (Nat × Nat))
  | _, 0 => Except.ok none
  | sft, fuel + 1 =>
    if U32_MAX < elapsed >>> sft then Except.error Panic.rdtscOverflow
    else if elapsed >>> sft = 0 then Except.error Panic.durationDivByZero
    else if 0 < nanosPerTick (elapsed >>> sft) then
      Except.ok (some (sft, nanosPerTick (elapsed >>> sft)))
    else shiftSearch elapsed (sft + 1) fuel

/-- The attempt loop of _duration_from_rdtsc, time.rs lines 23-57, over the
elapsed cycle counts the successive attempts measure: run the shift search
for each measurement, return its result as soon as an attempt succeeds, and
hit the unreachable panic of line 57 when every attempt is exhausted. -/
def calibrate : List Nat → Except Panic (Nat × Nat)
  | [] => Except.error Panic.calibrationUnreachable
  | e :: rest =>
    match shiftSearch e 0 64 with
    | Except.error p => Except.error p
    | Except.ok (some r) => Except.ok r
    | Except.ok none => calibrate rest

/-- The function _duration_from_rdtsc, time.rs lines 18-58: the for loop
runs at most MAX_ATTEMPTS measurements, so only the first MAX_ATTEMPTS
elements of the measurement stream are ever examined. -/
def durationFromRdtsc (meas : List Nat) : Except Panic (Nat × Nat) :=
  calibrate (List.take MAX_ATTEMPTS meas)

/-- How many measurement attempts the calibration consumed. -/
def attemptsUsed : List Nat → Nat
  | [] => 0
  | e :: rest =>
    match shiftSearch e 0 64 with
    | Except.ok none => attemptsUsed rest + 1
    | Except.ok (some _) => 1
    | Except.error _ => 1

/-- A successful shift search returns the first shift at which the divided
duration is non-zero: every smaller shift in the searched range gave zero
nanoseconds, and the returned duration is the division at the returned
shift. -/
theorem shiftSearch_ok_some (elapsed : Nat) :
    ∀ fuel start sft d, shiftSearch elapsed start fuel = Except.ok (some (sft, d)) →
      start ≤ sft ∧ sft < start + fuel ∧ d = nanosPerTick (elapsed >>> sft) ∧ 0 < d ∧
      ∀ t, start ≤ t → t < sft → nanosPerTick (elapsed >>> t) = 0 := by
  intro fuel
  induction fuel with
  | zero =>
    intro s sft d h
    simp [shiftSearch] at h
  | succ n ih =>
    intro s sft d h
    by_cases h1 : U32_MAX < elapsed >>> s
    · simp [shiftSearch, h1] at h
    · by_cases h2 : elapsed >>> s = 0
      · simp [shiftSearch, h1, h2] at h
      · by_cases h3 : 0 < nanosPerTick (elapsed >>> s)
        · simp only [shiftSearch, if_neg h1, if_neg h2, if_pos h3, Except.ok.injEq,
            Option.some.injEq, Prod.mk.injEq] at h
          obtain ⟨hsft, hd⟩ := h
          subst hsft
          exact ⟨by omega, by omega, by omega, by omega, fun t ht1 ht2 => by omega⟩
        · simp only [shiftSearch, if_neg h1, if_neg h2, if_neg h3] at h
          obtain ⟨ih1, ih2, ih3, ih4, ih5⟩ := ih (s + 1) sft d h
          refine ⟨by omega, by omega, ih3, ih4, ?_⟩
          intro t ht1 ht2
          rcases Nat.eq_or_lt_of_le ht1 with he | hl
          · rw [← he]
            omega
          · exact ih5 t hl ht2

/-- When every attempt exhausts its shifts, the calibration ends in the
unreachable panic. -/
theorem calibrate_all_none :
    ∀ l : List Nat, (∀ e ∈ l, shiftSearch e 0 64 = Except.ok none) →
      calibrate l = Except.error Panic.calibrationUnreachable := by
  intro l
  induction l with
  | nil => intro _; rfl
  | cons e rest ih =>
    intro h
    have he := h e (List.mem_cons_self e rest)
    simp only [calibrate, he]
    exact ih fun x hx => h x (List.mem_cons_of_mem e hx)

/-- The calibration consumes at most one attempt per measurement. -/
theorem attemptsUsed_le_length : ∀ l : List Nat, attemptsUsed l ≤ l.length := by
  intro l
  induction l with
  | nil => simp [attemptsUsed]
  | cons e rest ih =>
    rcases h : shiftSearch e 0 64 with p | o
    · simp only [attemptsUsed, h, List.length_cons]
      omega
    · rcases o with _ | r
      · simp only [attemptsUsed, h, List.length_cons]
        omega
      · simp only [attemptsUsed, h, List.length_cons]
        omega

/-! ## Claim C7 -/

/-- Claim C7: the calibration performs at most MAX_ATTEMPTS (5) measurement
attempts; within one attempt it shifts the divisor right by increasing
amounts, and a successful search returns the first shift (below 64) whose
nanosecond duration is non-zero, every smaller shift having produced zero;
the whole calibration returns as soon as an attempt succeeds; and
exhausting every attempt reaches the unreachable panic of time.rs line
57. -/
theorem C7_rdtsc_calibration (meas : List Nat) (elapsed sft d : Nat) :
    attemptsUsed (List.take MAX_ATTEMPTS meas) ≤ MAX_ATTEMPTS ∧
    (shiftSearch elapsed 0 64 = Except.ok (some (sft, d)) →
      0 < d ∧ d = nanosPerTick (elapsed >>> sft) ∧ sft < 64 ∧
      ∀ t, t < sft → nanosPerTick (elapsed >>> t) = 0) ∧
    (∀ rest, shiftSearch elapsed 0 64 = Except.ok (some (sft, d)) →
      durationFromRdtsc (elapsed :: rest) = Except.ok (sft, d)) ∧
    ((∀ e ∈ List.take MAX_ATTEMPTS meas, shiftSearch e 0 64 = Except.ok none) →
      durationFromRdtsc meas = Except.error Panic.calibrationUnreachable) := by
  refine ⟨?_, ?_, ?_, ?_⟩
  · refine le_trans (attemptsUsed_le_length _) ?_
    rw [List.length_take]
    exact min_le_left _ _
  · intro h
    obtain ⟨hs1, hs2, hs3, hs4, hs5⟩ := shiftSearch_ok_some elapsed 64 0 sft d h
    exact ⟨hs4, hs3, by omega, fun t ht => hs5 t (Nat.zero_le t) ht⟩
  · intro rest h
    have ht : List.take MAX_ATTEMPTS (elapsed :: rest) = elapsed :: List.take 4 rest := rfl
    simp only [durationFromRdtsc, ht, calibrate, h]
  · intro h
    exact calibrate_all_none _ h
